import Mathlib

set_option maxRecDepth 4000

/-!
Verification development for the HVAC voice-agent backend.

The definitions below are shallow embeddings of the Python source:
  * `src/utils/ghl_fields.py`           — custom-field key normalization
  * `src/integrations/ghl/client.py`    — `get_calendar_availability` slot
    generation and conflict filtering
  * `src/webhooks/ghl.py`               — webhook routing, `handle_new_lead`,
    `check_call_and_send_sms_fallback`
  * `src/functions/create_contact.py`   — duplicate-contact recovery

Python conventions embedded throughout: `None` is `Option.none`; string
truthiness (`if s:`) is "present and nonempty"; `a or b` keeps the first
truthy operand; dictionaries of string keys/values are association lists
with first-match lookup.
-/

namespace HVAC

/-- Python truthiness for an optional string: `None` and `""` are falsy. -/
def truthyS : Option String → Bool
  | none => false
  | some s => !(s == "")

/-- Python `a or b` on optional strings: first truthy operand, else `b`. -/
def pyOrOpt (a b : Option String) : Option String :=
  if truthyS a then a else b

/-- Python `str(x)` for an optional string (`str(None) = "None"`). -/
def pyStr : Option String → String
  | none => "None"
  | some s => s

/-- Python `s.lower()` (ASCII case folding as used by the source). -/
def lowerStr (s : String) : String :=
  String.mk (s.data.map Char.toLower)

/-- Python `key.startswith("contact.")`. -/
def startsWithContact (k : String) : Bool :=
  "contact.".data.isPrefixOf k.data

/-- From `src/utils/ghl_fields.py`: normalize a custom field key to the
GHL `contact.{key}` namespace, leaving already-namespaced keys unchanged. -/
def normalize_ghl_field_key (key : String) : String :=
  if startsWithContact key then key else "contact." ++ key

/-- One entry of the GHL custom-fields array payload
(`{"key": ..., "field_value": ...}`). -/
structure CustomField where
  key : String
  field_value : String
deriving DecidableEq

/-- From `src/utils/ghl_fields.py`: build the GHL custom-fields array from a
dictionary.  Values are optional strings (`none` = Python `None`); `str(v)`
of a string is itself and `None` becomes `""`. -/
def build_custom_fields_array (fields : List (String × Option String)) :
    List CustomField :=
  fields.map fun kv =>
    { key := normalize_ghl_field_key kv.1
      field_value := match kv.2 with
        | some v => v
        | none => "" }

lemma isPrefixOf_self_append (l r : List Char) : l.isPrefixOf (l ++ r) = true := by
  induction l with
  | nil => simp [List.isPrefixOf]
  | cons c t ih => simp [List.isPrefixOf, ih]

lemma startsWithContact_append (k : String) :
    startsWithContact ("contact." ++ k) = true := by
  have hdata : ("contact." ++ k).data = "contact.".data ++ k.data := rfl
  simp [startsWithContact, hdata, isPrefixOf_self_append]

lemma contactNs_append_ne (k k' : String) (hk : startsWithContact k = false) :
    ("contact." ++ k' = k) → False := by
  intro h
  rw [← h] at hk
  rw [startsWithContact_append] at hk
  exact Bool.noConfusion hk

lemma contactNs_append_inj {k₁ k₂ : String}
    (h : "contact." ++ k₁ = "contact." ++ k₂) : k₁ = k₂ := by
  have hd : ("contact." ++ k₁).data = ("contact." ++ k₂).data := congrArg String.data h
  have hd₁ : ("contact." ++ k₁).data = "contact.".data ++ k₁.data := rfl
  have hd₂ : ("contact." ++ k₂).data = "contact.".data ++ k₂.data := rfl
  rw [hd₁, hd₂] at hd
  have : k₁.data = k₂.data := List.append_cancel_left hd
  cases k₁; cases k₂
  simp only at this
  rw [this]

/-- C10: every entry produced by `build_custom_fields_array` has a key in the
`contact.` namespace and its `field_value` is the string form of the input
value (the empty string for `None`); `normalize_ghl_field_key` is idempotent. -/
theorem c10_custom_fields_shape :
    (∀ (fields : List (String × Option String)) (e : CustomField),
        e ∈ build_custom_fields_array fields →
          startsWithContact e.key = true ∧
          ∃ kv, kv ∈ fields ∧ e.key = normalize_ghl_field_key kv.1 ∧
            e.field_value = (match kv.2 with | some v => v | none => "")) ∧
    (∀ k, normalize_ghl_field_key (normalize_ghl_field_key k) =
      normalize_ghl_field_key k) := by
  constructor
  · intro fields e he
    simp only [build_custom_fields_array, List.mem_map] at he
    obtain ⟨kv, hkv, rfl⟩ := he
    refine ⟨?_, kv, hkv, rfl, rfl⟩
    by_cases h : startsWithContact kv.1 = true
    · simp [normalize_ghl_field_key, h]
    · have h' : startsWithContact kv.1 = false := by
        cases hb : startsWithContact kv.1
        · rfl
        · exact absurd hb h
      simp [normalize_ghl_field_key, h', startsWithContact_append]
  · intro k
    by_cases h : startsWithContact k = true
    · simp [normalize_ghl_field_key, h]
    · have h' : startsWithContact k = false := by
        cases hb : startsWithContact k
        · rfl
        · exact absurd hb h
      simp [normalize_ghl_field_key, h', startsWithContact_append]

/-- C10 witness: evaluating the theorem at a concrete field dictionary. -/
theorem c10_custom_fields_shape_witness :
    startsWithContact
      (CustomField.key ⟨"contact.vapi_called", "true"⟩) = true ∧
    ∃ kv, kv ∈ [("vapi_called", some "true")] ∧
      (CustomField.key ⟨"contact.vapi_called", "true"⟩) = normalize_ghl_field_key kv.1 ∧
      (CustomField.field_value ⟨"contact.vapi_called", "true"⟩) =
        (match kv.2 with | some v => v | none => "") :=
  c10_custom_fields_shape.1 [("vapi_called", some "true")]
    ⟨"contact.vapi_called", "true"⟩ (by decide)

/-!
Calendar availability (`GHLClient.get_calendar_availability`,
`src/integrations/ghl/client.py` lines 148-266).

Time model: a calendar day is a `Nat` counting days since Monday 2024-12-30,
so `weekday d = d % 7` matches Python's `date.weekday()` (Monday = 0).
A datetime is a `Nat` of minutes, `day * 1440 + minute-of-day`.

An appointment's `startTime`/`endTime` field (after the
`apt.get("startTime") or apt.get("start_time")` fallback chain) is one of:
  * `missing`    — absent, `None`, or empty (falsy, fails the `if apt_start
    and apt_end` presence check);
  * `malformed`  — a nonempty string `datetime.fromisoformat` rejects
    (raises, caught by the bare `except: pass`);
  * `naive t`    — parses to an offset-naive datetime at minute `t`;
  * `aware t`    — parses to an offset-aware datetime (the source replaces a
    trailing `Z` with `+00:00`, so UTC-suffixed stamps land here).  Comparing
    it against the offset-naive slot datetimes raises `TypeError`, caught by
    the same bare `except`.
-/

/-- A raw appointment timestamp as classified above. -/
inductive RawTS where
  | missing
  | malformed (s : String)
  | naive (t : Nat)
  | aware (t : Nat)
deriving DecidableEq

/-- Python truthiness of the raw timestamp (the `if apt_start and apt_end`
check): only absent/empty is falsy. -/
def RawTS.present : RawTS → Bool
  | .missing => false
  | _ => true

/-- The minute value `datetime.fromisoformat` yields, `none` if it raises. -/
def RawTS.parseMin : RawTS → Option Nat
  | .naive t => some t
  | .aware t => some t
  | _ => none

/-- Whether the parsed datetime is offset-aware. -/
def RawTS.isAware : RawTS → Bool
  | .aware _ => true
  | _ => false

/-- A booked appointment fetched from the CRM (only the fields the conflict
filter reads). -/
structure Appointment where
  startTime : RawTS
  endTime : RawTS
deriving DecidableEq

/-- The per-appointment conflict test from lines 231-246 of `client.py`:
`if not (slot_end <= apt_start_dt or current_time >= apt_end_dt)` inside
`try: ... except: pass`.  Python evaluates `slot_end <= apt_start_dt` first
(raising `TypeError` if the appointment side is offset-aware), short-circuits
the `or`, then evaluates `current_time >= apt_end_dt` (same caveat).  Any
raise is swallowed and the appointment does not block the slot. -/
def aptBlocks (slotStart slotEnd : Nat) (a : Appointment) : Bool :=
  if a.startTime.present && a.endTime.present then
    match a.startTime.parseMin, a.endTime.parseMin with
    | some s, some e =>
      if a.startTime.isAware then false          -- TypeError on first compare
      else if slotEnd ≤ s then false             -- `or` short-circuits: no overlap
      else if a.endTime.isAware then false       -- TypeError on second compare
      else decide (slotStart < e)
    | _, _ => false                              -- fromisoformat raised
  else false

/-- One generated slot (`{"startTime": ..., "endTime": ..., "available": ...}`). -/
structure Slot where
  startTime : Nat
  endTime : Nat
  available : Bool
deriving DecidableEq

/-- Business field hours from `client.py` lines 207-208: 8:00 AM start,
in minutes of the day. -/
def business_start : Nat := 480

/-- Business field hours close, 4:30 PM, in minutes of the day. -/
def business_end : Nat := 990

/-- The slot-start times the `while current_time < end_time` loop emits
(1-hour slots, breaking when `slot_end > end_time`), fuel-indexed so the
kernel can evaluate it.  The fuel in `genStarts` exceeds the iteration
count, so it never truncates. -/
def genStartsAux : Nat → Nat → Nat → List Nat
  | 0, _, _ => []
  | fuel + 1, cur, endT =>
    if cur < endT && cur + 60 ≤ endT then cur :: genStartsAux fuel (cur + 60) endT
    else []

/-- Slot starts for one day between `startT` and `endT` minutes. -/
def genStarts (startT endT : Nat) : List Nat :=
  genStartsAux (endT + 1 - startT) startT endT

/-- Python's `date.weekday()` under the day encoding (day 0 = Monday). -/
def weekday (d : Nat) : Nat := d % 7

/-- The holiday set of `src/utils/business_hours.py` (`HOLIDAYS`), encoded as
day numbers: 2 = 2025-01-01 (Wed), 186 = 2025-07-04 (Fri),
360 = 2025-12-25 (Thu), 367 = 2026-01-01 (Thu), 551 = 2026-07-04 (Sat),
725 = 2026-12-25 (Fri). -/
def HOLIDAYS : List Nat := [2, 186, 360, 367, 551, 725]

/-- Slot generation from `client.py` lines 214-256: for every day of the
inclusive range, skip Saturday/Sunday (`weekday < 5`), emit 1-hour slots
from 8:00 to the last one fitting before 16:30, marking a slot available
unless some fetched appointment blocks it.  No holiday check appears in the
source. -/
def generateSlots (startD endD : Nat) (appts : List Appointment) : List Slot :=
  ((List.range (endD + 1 - startD)).map (fun i => startD + i)).flatMap fun d =>
    if weekday d < 5 then
      (genStarts business_start business_end).map fun m =>
        let s := d * 1440 + m
        { startTime := s
          endTime := s + 60
          available := !(appts.any (aptBlocks s (s + 60))) }
    else []

/-- Outcome of the appointments fetch (`client.py` lines 167-200): either the
normalized appointment list, or a `GHLAPIError` with its status code. -/
inductive FetchOutcome where
  | ok (appts : List Appointment)
  | fail (statusCode : Nat)
deriving DecidableEq

/-- The appointment list the generator actually uses: a successful fetch
passes through; a 404 falls back to the alternative endpoint whose failure
(any exception, bare `except`) yields `[]`; any other error also yields `[]`
after a logged warning.  No failure propagates. -/
def effectiveAppointments (f1 : FetchOutcome)
    (f2 : Except Unit (List Appointment)) : List Appointment :=
  match f1 with
  | .ok appts => appts
  | .fail code =>
    if code = 404 then
      match f2 with
      | .ok appts => appts
      | .error _ => []
    else []

/-- `get_calendar_availability` for an already-parsed date range: fetch
appointments (with the fallback/swallow policy above) and generate slots. -/
def get_calendar_availability (f1 : FetchOutcome)
    (f2 : Except Unit (List Appointment)) (startD endD : Nat) : List Slot :=
  generateSlots startD endD (effectiveAppointments f1 f2)

lemma genStartsAux_mem {fuel cur endT m : Nat}
    (h : m ∈ genStartsAux fuel cur endT) : cur ≤ m ∧ m + 60 ≤ endT := by
  induction fuel generalizing cur with
  | zero => simp [genStartsAux] at h
  | succ fuel ih =>
    simp only [genStartsAux] at h
    split at h
    · rename_i hcond
      simp only [Bool.and_eq_true, decide_eq_true_eq] at hcond
      rcases List.mem_cons.mp h with rfl | h
      · exact ⟨Nat.le_refl _, hcond.2⟩
      · have := ih h
        exact ⟨Nat.le_trans (Nat.le_add_right cur 60) this.1, this.2⟩
    · simp at h

/-- Membership inversion for `generateSlots`: every slot comes from an
in-range weekday `d` and a loop-emitted minute `m`. -/
lemma generateSlots_mem {startD endD : Nat} {appts : List Appointment}
    {slot : Slot} (h : slot ∈ generateSlots startD endD appts) :
    ∃ d m, startD ≤ d ∧ d ≤ endD ∧ weekday d < 5 ∧
      business_start ≤ m ∧ m + 60 ≤ business_end ∧
      slot.startTime = d * 1440 + m ∧
      slot.endTime = slot.startTime + 60 ∧
      slot.available = !(appts.any (aptBlocks slot.startTime slot.endTime)) := by
  simp only [generateSlots, List.mem_flatMap, List.mem_map, List.mem_range] at h
  obtain ⟨d, ⟨i, hi, rfl⟩, hd⟩ := h
  split at hd
  · rename_i hwd
    simp only [List.mem_map] at hd
    obtain ⟨m, hm, rfl⟩ := hd
    have hmb := genStartsAux_mem hm
    exact ⟨startD + i, m, Nat.le_add_right _ _,
      by omega, hwd, hmb.1, hmb.2, rfl, rfl, rfl⟩
  · simp at hd

/-- C1 (code bug): an appointment whose timestamps parse successfully but are
offset-aware (e.g. the `...Z` stamps GHL returns, turned into `+00:00` by the
source) never marks any slot unavailable, even when the half-open intervals
overlap: the naive-vs-aware datetime comparison raises `TypeError`, swallowed
by the bare `except`.  Here the appointment [510, 570) overlaps slot
[480, 540), yet every generated slot stays available; the same appointment
with offset-naive timestamps does block slots, showing the overlap logic
itself works. -/
theorem c1_aware_timestamp_conflict_missed :
    ((generateSlots 0 0 [⟨RawTS.aware 510, RawTS.aware 570⟩]).all
        (fun s => s.available)) = true ∧
    (Slot.mk 480 540 true) ∈ generateSlots 0 0 [⟨RawTS.aware 510, RawTS.aware 570⟩] ∧
    (RawTS.aware 510).parseMin = some 510 ∧
    (RawTS.aware 570).parseMin = some 570 ∧
    (480 < 570 ∧ 510 < 540) ∧
    ((generateSlots 0 0 [⟨RawTS.naive 510, RawTS.naive 570⟩]).any
        (fun s => !s.available)) = true := by
  decide

/-- C2 (amended): every generated slot lies on a weekday (Monday-Friday) of
the requested range, with both endpoints inside the 08:00-16:30 field-hours
interval; weekend days yield no slots.  The holiday set is NOT consulted by
the generator (see the counterexample below). -/
theorem c2_slots_within_field_hours_weekdays :
    ∀ (startD endD : Nat) (appts : List Appointment) (slot : Slot),
      slot ∈ generateSlots startD endD appts →
      ∃ d m, startD ≤ d ∧ d ≤ endD ∧ weekday d < 5 ∧
        business_start ≤ m ∧ m + 60 ≤ business_end ∧
        slot.startTime = d * 1440 + m ∧ slot.endTime = slot.startTime + 60 := by
  intro startD endD appts slot h
  obtain ⟨d, m, h1, h2, h3, h4, h5, h6, h7, _⟩ := generateSlots_mem h
  exact ⟨d, m, h1, h2, h3, h4, h5, h6, h7⟩

/-- C2 witness: the theorem applied to the first slot of Monday day 0. -/
theorem c2_slots_within_field_hours_weekdays_witness :
    ∃ d m, 0 ≤ d ∧ d ≤ 0 ∧ weekday d < 5 ∧
      business_start ≤ m ∧ m + 60 ≤ business_end ∧
      (Slot.mk 480 540 true).startTime = d * 1440 + m ∧
      (Slot.mk 480 540 true).endTime = (Slot.mk 480 540 true).startTime + 60 :=
  c2_slots_within_field_hours_weekdays 0 0 [] (Slot.mk 480 540 true) (by decide)

/-- C2 counterexample: day 360 is 2025-12-25, a Thursday in the configured
holiday set, yet the generator emits a full day of slots for it — the claim
that no slot is produced for a holiday is false. -/
theorem c2_holiday_slots_generated :
    360 ∈ HOLIDAYS ∧ weekday 360 < 5 ∧
    generateSlots 360 360 [] ≠ [] ∧ (generateSlots 360 360 []).length = 8 := by
  decide

/-- C7 (amended): when the appointments fetch fails, `get_calendar_availability`
does not propagate a failure — it proceeds with an empty appointment list and
returns the generated slots without any conflict checking (a non-404 error
directly; a 404 after the alternative endpoint also fails).  A successful
fetch feeds the fetched list into conflict filtering. -/
theorem c7_fetch_failure_fail_open :
    (∀ (s e code : Nat) (f2 : Except Unit (List Appointment)), code ≠ 404 →
        get_calendar_availability (.fail code) f2 s e = generateSlots s e []) ∧
    (∀ s e : Nat,
        get_calendar_availability (.fail 404) (.error ()) s e =
          generateSlots s e []) ∧
    (∀ (s e : Nat) (appts : List Appointment)
        (f2 : Except Unit (List Appointment)),
        get_calendar_availability (.ok appts) f2 s e =
          generateSlots s e appts) := by
  refine ⟨?_, ?_, ?_⟩
  · intro s e code f2 hc
    simp [get_calendar_availability, effectiveAppointments, hc]
  · intro s e
    simp [get_calendar_availability, effectiveAppointments]
  · intro s e appts f2
    simp [get_calendar_availability, effectiveAppointments]

/-- C7 witness: the amended theorem applied to a concrete failed fetch. -/
theorem c7_fetch_failure_fail_open_witness :
    get_calendar_availability (.fail 500)
        (.ok [⟨RawTS.naive 510, RawTS.naive 570⟩]) 0 0 =
      generateSlots 0 0 [] :=
  c7_fetch_failure_fail_open.1 0 0 500
    (.ok [⟨RawTS.naive 510, RawTS.naive 570⟩]) (by decide)

/-- C7 counterexample: with the appointments fetch failing (HTTP 500), the
function still returns a full, nonempty, all-available slot list — not a
typed failure — even though the same day with the fetched appointment would
have had unavailable slots.  The claim that a failed fetch propagates a
single typed failure and never yields an unconflict-checked slot list is
false. -/
theorem c7_fetch_failure_returns_unfiltered_slots :
    ((get_calendar_availability (.fail 500) (.error ()) 0 0).length = 8 ∧
     (get_calendar_availability (.fail 500) (.error ()) 0 0).all
        (fun s => s.available) = true) ∧
    (get_calendar_availability (.ok [⟨RawTS.naive 510, RawTS.naive 570⟩])
        (.error ()) 0 0).any (fun s => !s.available) = true := by
  decide

/-- C8: an appointment whose start or end timestamp fails to parse never
blocks any slot (per-appointment fail-open), and if every fetched appointment
is such, every generated slot is available; generation is total, so no
exception escapes. -/
theorem c8_malformed_timestamps_fail_open :
    (∀ (st en : Nat) (a : Appointment),
        a.startTime.parseMin = none ∨ a.endTime.parseMin = none →
        aptBlocks st en a = false) ∧
    (∀ (s e : Nat) (appts : List Appointment),
        (∀ a ∈ appts, a.startTime.parseMin = none ∨ a.endTime.parseMin = none) →
        ∀ slot ∈ generateSlots s e appts, slot.available = true) := by
  have hblock : ∀ (st en : Nat) (a : Appointment),
      a.startTime.parseMin = none ∨ a.endTime.parseMin = none →
      aptBlocks st en a = false := by
    intro st en a h
    obtain ⟨as, ae⟩ := a
    cases as <;> cases ae <;>
      simp_all [aptBlocks, RawTS.parseMin, RawTS.present]
  refine ⟨hblock, ?_⟩
  intro s e appts hall slot hslot
  obtain ⟨d, m, _, _, _, _, _, _, _, hav⟩ := generateSlots_mem hslot
  rw [hav]
  have : appts.any (aptBlocks slot.startTime slot.endTime) = false := by
    rw [List.any_eq_false]
    intro a ha
    simp [hblock slot.startTime slot.endTime a (hall a ha)]
  simp [this]

/-- C8 witness: a malformed appointment overlapping the whole morning blocks
nothing, concretely. -/
theorem c8_malformed_timestamps_fail_open_witness :
    aptBlocks 480 540 ⟨RawTS.malformed "not-a-date", RawTS.naive 570⟩ = false ∧
    ∀ slot ∈ generateSlots 0 0 [⟨RawTS.malformed "not-a-date", RawTS.naive 570⟩],
      slot.available = true :=
  ⟨c8_malformed_timestamps_fail_open.1 480 540
      ⟨RawTS.malformed "not-a-date", RawTS.naive 570⟩ (Or.inl rfl),
   c8_malformed_timestamps_fail_open.2 0 0
      [⟨RawTS.malformed "not-a-date", RawTS.naive 570⟩]
      (by intro a ha; simp at ha; simp [ha, RawTS.parseMin])⟩

/-!
Webhook routing (`ghl_webhook`, `src/webhooks/ghl.py` lines 19-106).

The model starts after signature verification and JSON parsing succeed.
`locationId` is the top-level payload field (`none` = absent; `""` is the
`body.get("locationId", "")` default and equally falsy), `dataLocationId` is
`data.get("locationId")`.
-/

/-- The parts of the webhook body the router inspects. -/
structure WebhookBody where
  typeField : Option String
  eventField : Option String
  locationId : Option String
  dataLocationId : Option String
deriving DecidableEq

/-- `event_type = body.get("type") or body.get("event", "")`. -/
def event_type (b : WebhookBody) : String :=
  pyStr (pyOrOpt b.typeField (some (b.eventField.getD "")))

/-- Whether the event type dispatches to one of the lead handlers (upstream
work beyond validation happens only for these). -/
def handledEvent (et : String) : Bool :=
  et == "contact.created" || et == "contact.updated" ||
  et == "appointment.created" || et == "form.submitted" ||
  et == "conversation.created" || et == "chat.converted" ||
  et == "webchat.converted" || et == "lead.created" ||
  et == "ad.submission" || et == "google.lead" || et == "meta.lead" ||
  et == "facebook.lead"

/-- Router outcome: the JSON reply. -/
inductive WebhookOutcome where
  | ignored (reason : String)
  | ok (event : String)
deriving DecidableEq

/-- Router result: the reply plus whether a lead handler was invoked (the
only upstream calls beyond initial validation). -/
structure WebhookReply where
  outcome : WebhookOutcome
  dispatched : Bool
deriving DecidableEq

/-- The location check and dispatch of `ghl_webhook` (lines 50-106): an
absent/empty `locationId` falls back to `data["locationId"]` if truthy, else
to the configured id; a truthy effective id differing from the configured one
short-circuits to `{"status": "ignored", "reason": "location_mismatch"}`
before any handler runs. -/
def ghl_webhook (cfg : String) (b : WebhookBody) : WebhookReply :=
  let et := event_type b
  let loc0 := b.locationId.getD ""
  let loc :=
    if loc0 == "" then
      if truthyS b.dataLocationId then b.dataLocationId.getD "" else cfg
    else loc0
  if !(loc == "") && !(loc == cfg) then
    { outcome := .ignored "location_mismatch", dispatched := false }
  else
    { outcome := .ok et, dispatched := handledEvent et }

/-- C5: a payload carrying a (truthy) location id different from the
configured tenant id is answered with the non-error
`{status: ignored, reason: location_mismatch}` reply and no handler is
invoked; a payload with a missing location id (top-level and in `data`)
falls back to the configured id and is processed normally (an `ok` reply,
dispatching whenever the event type is handled). -/
theorem c5_location_mismatch_ignored :
    (∀ (cfg : String) (b : WebhookBody),
        truthyS b.locationId = true → ¬(b.locationId.getD "" = cfg) →
        ghl_webhook cfg b =
          { outcome := .ignored "location_mismatch", dispatched := false }) ∧
    (∀ (cfg : String) (b : WebhookBody),
        truthyS b.locationId = false → truthyS b.dataLocationId = false →
        ghl_webhook cfg b =
          { outcome := .ok (event_type b),
            dispatched := handledEvent (event_type b) }) := by
  constructor
  · intro cfg b htr hne
    have hsome : ∃ s, b.locationId = some s ∧ (s == "") = false := by
      cases hb : b.locationId with
      | none => rw [hb] at htr; simp [truthyS] at htr
      | some s =>
        rw [hb] at htr
        simp only [truthyS] at htr
        exact ⟨s, rfl, by cases h : (s == "") <;> simp [h] at htr ⊢⟩
    obtain ⟨s, hb, hse⟩ := hsome
    have hne' : (s == cfg) = false := by
      rw [hb] at hne
      simp only [Option.getD] at hne
      exact beq_eq_false_iff_ne.mpr hne
    simp [ghl_webhook, hb, hse, hne']
  · intro cfg b h0 hd
    have hloc : b.locationId.getD "" = "" := by
      cases hb : b.locationId with
      | none => simp
      | some s =>
        rw [hb] at h0
        simp only [truthyS] at h0
        cases h : (s == "") with
        | false => rw [h] at h0; simp at h0
        | true => simp [beq_iff_eq.mp h]
    by_cases hcfg : cfg = ""
    · simp [ghl_webhook, hloc, hd, hcfg]
    · simp [ghl_webhook, hloc, hd, beq_eq_false_iff_ne.mpr hcfg]

/-- C5 witness: a mismatched-tenant payload is ignored, and the same payload
without any location id is processed. -/
theorem c5_location_mismatch_ignored_witness :
    ghl_webhook "LOC1"
        { typeField := some "contact.created", eventField := none,
          locationId := some "OTHER", dataLocationId := none } =
      { outcome := .ignored "location_mismatch", dispatched := false } ∧
    ghl_webhook "LOC1"
        { typeField := some "contact.created", eventField := none,
          locationId := none, dataLocationId := none } =
      { outcome := .ok (event_type
            { typeField := some "contact.created", eventField := none,
              locationId := none, dataLocationId := none }),
        dispatched := handledEvent (event_type
            { typeField := some "contact.created", eventField := none,
              locationId := none, dataLocationId := none }) } :=
  ⟨c5_location_mismatch_ignored.1 "LOC1"
      { typeField := some "contact.created", eventField := none,
        locationId := some "OTHER", dataLocationId := none }
      (by decide) (by decide),
   c5_location_mismatch_ignored.2 "LOC1"
      { typeField := some "contact.created", eventField := none,
        locationId := none, dataLocationId := none }
      (by decide) (by decide)⟩

/-!
Lead intake and SMS fallback (`handle_new_lead` and
`check_call_and_send_sms_fallback`, `src/webhooks/ghl.py` lines 109-323).

CRM collaborator model: a contact's custom fields are a key/value store with
canonical (unprefixed) keys.  Because the upstream presents field keys
inconsistently, a fetch renders the store through a presentation function
`pres : String → Bool` (`pres k = true` shows field `k` as `contact.k`).
A custom-field update upserts each written entry under its canonical key
(the written keys carry the `contact.` namespace added by
`build_custom_fields_array`).  The dict built in lines 151-162 from the
fetched list is therefore `presentFields pres store`.
-/

/-- Python `dict.get` over the association-list store (first match). -/
def getCF : List (String × String) → String → Option String
  | [], _ => none
  | kv :: rest, k => if kv.1 == k then some kv.2 else getCF rest k

/-- Replace the value of `k` (first occurrence), or append it: the CRM
store update for one written field. -/
def upsertField : List (String × String) → String → String → List (String × String)
  | [], k, v => [(k, v)]
  | kv :: rest, k, v =>
    if kv.1 == k then (k, v) :: rest else kv :: upsertField rest k v

/-- Canonical store invariant: CRM field keys carry no `contact.` namespace. -/
def WFStore (fs : List (String × String)) : Prop :=
  ∀ kv ∈ fs, startsWithContact kv.1 = false

/-- How a fetch presents the store: each key optionally gets the
`contact.` namespace, per the upstream's inconsistent rendering. -/
def presentFields (pres : String → Bool) : List (String × String) →
    List (String × String)
  | [] => []
  | kv :: rest =>
    (if pres kv.1 then "contact." ++ kv.1 else kv.1, kv.2) ::
      presentFields pres rest

/-- Drop the `contact.` namespace to recover the canonical key. -/
def stripContactNs (k : String) : String :=
  if startsWithContact k then String.mk (k.data.drop 8) else k

/-- Apply a written custom-fields array to the canonical store. -/
def applyFieldWrites (fs : List (String × String)) (ws : List CustomField) :
    List (String × String) :=
  ws.foldl (fun acc w => upsertField acc (stripContactNs w.key) w.field_value) fs

/-- The contact's `phoneNumbers` value: absent, present-but-not-a-list, or a
list of entries (each entry's `number` value, `""` when absent or `None`). -/
inductive PhoneNumbersField where
  | missing
  | nonList
  | numbers (entries : List String)
deriving DecidableEq

/-- The fetched contact record (the fields `handle_new_lead` reads). -/
structure Contact where
  phone : Option String
  phoneNumber : Option String
  phoneNumbers : PhoneNumbersField
  fields : List (String × String)
deriving DecidableEq

/-- The phone extraction of lines 129-133.  The conditional expression binds
looser than `or`, so the whole chain
`contact.get("phone") or contact.get("phoneNumber") or
contact.get("phoneNumbers", [{}])[0].get("number", "")` is the `if`-branch
taken only when `contact.get("phoneNumbers")` is a list; otherwise the
expression is `""` — even when `phone`/`phoneNumber` hold values.  `none`
models the `IndexError` of `[][0]` (caught by the handler's outer `try`). -/
def extractPhone (c : Contact) : Option String :=
  match c.phoneNumbers with
  | .numbers entries =>
    if truthyS c.phone then some (c.phone.getD "")
    else if truthyS c.phoneNumber then some (c.phoneNumber.getD "")
    else
      match entries with
      | [] => none
      | e :: _ => some e
  | _ => some ""

/-- The `vapi_called` read of lines 165-168: unprefixed key first, then the
prefixed form. -/
def vapi_called_value (fs : List (String × String)) : Option String :=
  pyOrOpt (getCF fs "vapi_called") (getCF fs "contact.vapi_called")

/-- Line 169: `vapi_called == "true" or str(vapi_called).lower() == "true"`. -/
def flagTrue (v : Option String) : Bool :=
  (v == some "true") || (lowerStr (pyStr v) == "true")

/-- Settings consulted by the handler. -/
structure LeadConfig where
  vapi_outbound_assistant_id : Option String
  vapi_phone_number_id : Option String

/-- The webhook `data` payload fields the handler reads. -/
structure LeadData where
  assistantId : Option String
  phoneNumberId : Option String
  leadSource : Option String
deriving DecidableEq

/-- Upstream side effects of one handler run. -/
structure LeadEffects where
  calls : Nat
  updates : Nat
deriving DecidableEq

/-- The hardcoded fallback outbound assistant id (line 178). -/
def default_outbound_assistant : String := "d6c74f74-de2a-420d-ae59-aab8fa7cbabe"

/-- The custom-fields dict written after a successful call (lines 206-213),
in insertion order. -/
def vapi_called_write_dict (callId : String) (d : LeadData) :
    List (String × Option String) :=
  [("vapi_called", some "true"), ("vapi_call_id", some callId)] ++
    (if truthyS d.leadSource then [("lead_source", some (pyStr d.leadSource))]
     else [])

/-- `handle_new_lead` (lines 109-229) as a state transition on the fetched
contact.  `normalizePhone` models `validate_phone_number` from
`src/utils/validation.py` (not present under `src/`): per the spec it
normalizes to a canonical international format and an unparseable number
raises, treated as absence — modelled as an arbitrary `Option`-valued
function.  `callId` is the id the voice-AI collaborator returns for the
created call.  Returns the issued effects (outbound calls, contact updates)
and the resulting contact state; every guard failure returns with zero
effects (logged and swallowed in the source). -/
def handle_new_lead (normalizePhone : String → Option String) (cfg : LeadConfig)
    (callId : String) (pres : String → Bool)
    (fetched : Option Contact) (d : LeadData) : LeadEffects × Option Contact :=
  match fetched with
  | none => (⟨0, 0⟩, none)
  | some c =>
    match extractPhone c with
    | none => (⟨0, 0⟩, some c)
    | some phone =>
      if phone == "" then (⟨0, 0⟩, some c)
      else
        match normalizePhone phone with
        | none => (⟨0, 0⟩, some c)
        | some _ =>
          if flagTrue (vapi_called_value (presentFields pres c.fields)) then
            (⟨0, 0⟩, some c)
          else
            let assistantId := pyOrOpt d.assistantId
              (pyOrOpt cfg.vapi_outbound_assistant_id
                (some default_outbound_assistant))
            if !(truthyS assistantId) then (⟨0, 0⟩, some c)
            else
              let writes := build_custom_fields_array
                (vapi_called_write_dict callId d)
              (⟨1, 1⟩, some { c with fields := applyFieldWrites c.fields writes })

/-- The terminal-failure statuses of line 250 (duplicates as in the source). -/
def failed_statuses : List String :=
  ["failed", "no-answer", "busy", "canceled", "no-answer", "busy"]

/-- Lines 276-281: `sms_consent` read in unprefixed then prefixed form,
defaulting to `"false"`. -/
def sms_consent_raw (fs : List (String × String)) : String :=
  pyStr (pyOrOpt (getCF fs "sms_consent")
    (pyOrOpt (getCF fs "contact.sms_consent") (some "false")))

/-- Lines 283-288: the `sms_fallback_sent` read, same shape. -/
def sms_fallback_sent_raw (fs : List (String × String)) : String :=
  pyStr (pyOrOpt (getCF fs "sms_fallback_sent")
    (pyOrOpt (getCF fs "contact.sms_fallback_sent") (some "false")))

/-- What the delayed fallback check decides to do. -/
inductive SmsDecision where
  | send
  | noConsent
  | alreadySent
  | callSucceeded
  | contactMissing
deriving DecidableEq

/-- The decision core of `check_call_and_send_sms_fallback` (lines 244-323),
after the 30s delay and the Vapi status fetch: `callStatus` is the raw
status string (lowercased in the source), `fetched` the re-fetched contact,
`pres` the fetch's key presentation.  An SMS is attempted exactly on the
`send` branch. -/
def check_call_and_send_sms_fallback (callStatus : String)
    (fetched : Option Contact) (pres : String → Bool) : SmsDecision :=
  let st := lowerStr callStatus
  if failed_statuses.contains st then
    match fetched with
    | none => .contactMissing
    | some c =>
      let fs := presentFields pres c.fields
      let consent := lowerStr (sms_consent_raw fs) == "true"
      let sentFlag := lowerStr (sms_fallback_sent_raw fs) == "true"
      if consent && !sentFlag then .send
      else if !consent then .noConsent
      else .alreadySent
  else .callSucceeded

lemma getCF_upsert_self (fs : List (String × String)) (k v : String) :
    getCF (upsertField fs k v) k = some v := by
  induction fs with
  | nil => simp [upsertField, getCF]
  | cons kv rest ih =>
    by_cases h : (kv.1 == k) = true
    · simp [upsertField, getCF, h]
    · have h' : (kv.1 == k) = false := by
        cases hb : (kv.1 == k)
        · rfl
        · exact absurd hb h
      simp [upsertField, getCF, h', ih]

lemma getCF_upsert_ne (fs : List (String × String)) {k k' : String} (v : String)
    (h : (k' == k) = false) : getCF (upsertField fs k' v) k = getCF fs k := by
  induction fs with
  | nil => simp [upsertField, getCF, h]
  | cons kv rest ih =>
    by_cases hh : (kv.1 == k') = true
    · have hk : kv.1 = k' := beq_iff_eq.mp hh
      have h1 : (kv.1 == k) = false := by rw [hk]; exact h
      simp [upsertField, getCF, hh, h, h1]
    · have hh' : (kv.1 == k') = false := by
        cases hb : (kv.1 == k')
        · rfl
        · exact absurd hb hh
      by_cases hk : (kv.1 == k) = true
      · simp [upsertField, getCF, hh', hk]
      · have hk' : (kv.1 == k) = false := by
          cases hb : (kv.1 == k)
          · rfl
          · exact absurd hb hk
        simp [upsertField, getCF, hh', hk', ih]

lemma WFStore_upsert {fs : List (String × String)} {k : String} (v : String)
    (hw : WFStore fs) (hk : startsWithContact k = false) :
    WFStore (upsertField fs k v) := by
  induction fs with
  | nil =>
    intro kv hkv
    simp [upsertField] at hkv
    rw [hkv]
    exact hk
  | cons kv0 rest ih =>
    have hw0 := hw kv0 (List.mem_cons_self _ _)
    have hwr : WFStore rest := fun x hx => hw x (List.mem_cons_of_mem _ hx)
    intro kv hkv
    by_cases h : (kv0.1 == k) = true
    · simp only [upsertField, h, if_true] at hkv
      rcases List.mem_cons.mp hkv with rfl | hkv
      · exact hk
      · exact hw kv (List.mem_cons_of_mem _ hkv)
    · have h' : (kv0.1 == k) = false := by
        cases hb : (kv0.1 == k)
        · rfl
        · exact absurd hb h
      simp only [upsertField, h', if_false, Bool.false_eq_true] at hkv
      rcases List.mem_cons.mp hkv with rfl | hkv
      · exact hw0
      · exact ih hwr kv hkv

lemma boolNotTrue {b : Bool} (h : ¬ b = true) : b = false := by
  cases b
  · rfl
  · exact absurd rfl h

lemma getCF_present_unpref_off (pres : String → Bool)
    {fs : List (String × String)} {k : String}
    (hk : startsWithContact k = false) (hp : pres k = false) :
    getCF (presentFields pres fs) k = getCF fs k := by
  induction fs with
  | nil => simp [presentFields]
  | cons kv rest ih =>
    by_cases hpk : pres kv.1 = true
    · have hkvne : ¬(kv.1 = k) := by
        intro hkeq
        rw [hkeq, hp] at hpk
        exact Bool.noConfusion hpk
      have hne : ¬("contact." ++ kv.1 = k) := fun hcontra =>
        contactNs_append_ne k kv.1 hk hcontra
      simp [presentFields, getCF, hpk, hne, hkvne, ih]
    · have hpk' := boolNotTrue hpk
      by_cases hkk : kv.1 = k
      · subst hkk
        simp [presentFields, getCF, hpk']
      · simp [presentFields, getCF, hpk', hkk, ih]

lemma getCF_present_unpref_on (pres : String → Bool)
    {fs : List (String × String)} {k : String}
    (hk : startsWithContact k = false) (hp : pres k = true) :
    getCF (presentFields pres fs) k = none := by
  induction fs with
  | nil => simp [presentFields, getCF]
  | cons kv rest ih =>
    by_cases hpk : pres kv.1 = true
    · have hne : ¬("contact." ++ kv.1 = k) := fun hcontra =>
        contactNs_append_ne k kv.1 hk hcontra
      simp [presentFields, getCF, hpk, hne, ih]
    · have hpk' := boolNotTrue hpk
      have hkvne : ¬(kv.1 = k) := by
        intro hkeq
        rw [hkeq, hp] at hpk'
        exact Bool.noConfusion hpk'
      simp [presentFields, getCF, hpk', hkvne, ih]

lemma getCF_present_pref_on (pres : String → Bool)
    {fs : List (String × String)} {k : String} (hw : WFStore fs)
    (hp : pres k = true) :
    getCF (presentFields pres fs) ("contact." ++ k) = getCF fs k := by
  induction fs with
  | nil => simp [presentFields, getCF]
  | cons kv rest ih =>
    have hw0 := hw kv (List.mem_cons_self _ _)
    have hwr : WFStore rest := fun x hx => hw x (List.mem_cons_of_mem _ hx)
    by_cases hpk : pres kv.1 = true
    · by_cases hkk : kv.1 = k
      · subst hkk
        simp [presentFields, getCF, hpk]
      · have hne : ¬("contact." ++ kv.1 = "contact." ++ k) := fun hcontra =>
          hkk (contactNs_append_inj hcontra)
        simp [presentFields, getCF, hpk, hne, hkk, ih hwr]
    · have hpk' := boolNotTrue hpk
      have hne : ¬(kv.1 = "contact." ++ k) := by
        intro hcontra
        rw [hcontra, startsWithContact_append] at hw0
        exact Bool.noConfusion hw0
      have hkvne : ¬(kv.1 = k) := by
        intro hkeq
        rw [hkeq, hp] at hpk'
        exact Bool.noConfusion hpk'
      simp [presentFields, getCF, hpk', hne, hkvne, ih hwr]

lemma getCF_present_pref_off (pres : String → Bool)
    {fs : List (String × String)} {k : String} (hw : WFStore fs)
    (hp : pres k = false) :
    getCF (presentFields pres fs) ("contact." ++ k) = none := by
  induction fs with
  | nil => simp [presentFields, getCF]
  | cons kv rest ih =>
    have hw0 := hw kv (List.mem_cons_self _ _)
    have hwr : WFStore rest := fun x hx => hw x (List.mem_cons_of_mem _ hx)
    by_cases hpk : pres kv.1 = true
    · have hne : ¬("contact." ++ kv.1 = "contact." ++ k) := by
        intro hcontra
        rw [contactNs_append_inj hcontra, hp] at hpk
        exact Bool.noConfusion hpk
      simp [presentFields, getCF, hpk, hne, ih hwr]
    · have hpk' := boolNotTrue hpk
      have hne : ¬(kv.1 = "contact." ++ k) := by
        intro hcontra
        rw [hcontra, startsWithContact_append] at hw0
        exact Bool.noConfusion hw0
      simp [presentFields, getCF, hpk', hne, ih hwr]

/-- C3: the delayed fallback check attempts an SMS exactly when the call
status (lowercased) is in the terminal-failure set, the contact was found,
its `sms_consent` field (read in unprefixed or prefixed form, defaulting to
`"false"`) equals `true`, and its `sms_fallback_sent` flag does not; so no
consent means no SMS regardless of call outcome, and an already-sent flag
blocks a second SMS. -/
theorem c3_sms_fallback_guard :
    ∀ (status : String) (fetched : Option Contact) (pres : String → Bool),
      check_call_and_send_sms_fallback status fetched pres = SmsDecision.send ↔
      (failed_statuses.contains (lowerStr status) = true ∧
       ∃ c, fetched = some c ∧
         lowerStr (sms_consent_raw (presentFields pres c.fields)) = "true" ∧
         lowerStr (sms_fallback_sent_raw (presentFields pres c.fields)) ≠ "true") := by
  intro status fetched pres
  unfold check_call_and_send_sms_fallback
  cases hA : failed_statuses.contains (lowerStr status) with
  | false =>
    have hAm : lowerStr status ∉ failed_statuses := by simpa using hA
    simp [hA, hAm]
  | true =>
    have hAm : lowerStr status ∈ failed_statuses := by simpa using hA
    cases fetched with
    | none => simp [hA, hAm]
    | some c =>
      cases hB : (lowerStr (sms_consent_raw (presentFields pres c.fields)) == "true") with
      | false =>
        have hBp : lowerStr (sms_consent_raw (presentFields pres c.fields)) ≠ "true" :=
          beq_eq_false_iff_ne.mp hB
        simp [hA, hAm, hB, hBp]
      | true =>
        have hBp : lowerStr (sms_consent_raw (presentFields pres c.fields)) = "true" :=
          beq_iff_eq.mp hB
        cases hC : (lowerStr (sms_fallback_sent_raw (presentFields pres c.fields)) == "true") with
        | false =>
          have hCp : lowerStr (sms_fallback_sent_raw (presentFields pres c.fields)) ≠ "true" :=
            beq_eq_false_iff_ne.mp hC
          simp [hA, hAm, hB, hC, hBp, hCp]
        | true =>
          have hCp : lowerStr (sms_fallback_sent_raw (presentFields pres c.fields)) = "true" :=
            beq_iff_eq.mp hC
          simp [hA, hAm, hB, hC, hBp, hCp]

/-- C9 (implicit): when the fetched contact's `phoneNumbers` value exists but
is not a list, the conditional expression yields `""` for the whole phone
lookup chain — even if `phone` or `phoneNumber` holds a valid number — and
the handler takes the no-phone fail-closed path: zero calls, zero updates,
contact untouched. -/
theorem c9_nonlist_phonenumbers_skips_lead :
    ∀ (normalizePhone : String → Option String) (cfg : LeadConfig)
      (callId : String) (pres : String → Bool) (c : Contact) (d : LeadData),
      c.phoneNumbers = PhoneNumbersField.nonList →
      extractPhone c = some "" ∧
      handle_new_lead normalizePhone cfg callId pres (some c) d =
        (⟨0, 0⟩, some c) := by
  intro n cfg cid pres c d h
  have he : extractPhone c = some "" := by
    unfold extractPhone
    rw [h]
  exact ⟨he, by simp [handle_new_lead, he]⟩

/-- C9 witness: a contact holding a valid `phone` value but a non-list
`phoneNumbers` is skipped. -/
theorem c9_nonlist_phonenumbers_skips_lead_witness :
    extractPhone
        { phone := some "+15035550101", phoneNumber := none,
          phoneNumbers := PhoneNumbersField.nonList, fields := [] } = some "" ∧
    handle_new_lead (fun s => some s) ⟨none, none⟩ "call-1" (fun _ => false)
        (some { phone := some "+15035550101", phoneNumber := none,
                phoneNumbers := PhoneNumbersField.nonList, fields := [] })
        ⟨none, none, none⟩ =
      (⟨0, 0⟩, some { phone := some "+15035550101", phoneNumber := none,
                      phoneNumbers := PhoneNumbersField.nonList, fields := [] }) :=
  c9_nonlist_phonenumbers_skips_lead (fun s => some s) ⟨none, none⟩ "call-1"
    (fun _ => false)
    { phone := some "+15035550101", phoneNumber := none,
      phoneNumbers := PhoneNumbersField.nonList, fields := [] }
    ⟨none, none, none⟩ rfl

lemma strip_norm (k : String) (hk : startsWithContact k = false) :
    stripContactNs (normalize_ghl_field_key k) = k := by
  have h1 : normalize_ghl_field_key k = "contact." ++ k := by
    simp [normalize_ghl_field_key, hk]
  have h2 : startsWithContact ("contact." ++ k) = true := startsWithContact_append k
  have h3 : stripContactNs ("contact." ++ k) =
      String.mk ((("contact." ++ k).data).drop 8) := by
    simp [stripContactNs, h2]
  have hdata : ("contact." ++ k).data = "contact.".data ++ k.data := rfl
  have h8 : ("contact.".data).length = 8 := rfl
  rw [h1, h3, hdata, ← h8, List.drop_left]

lemma applyWrites_shape (fs : List (String × String)) (cid : String) (d : LeadData) :
    applyFieldWrites fs (build_custom_fields_array (vapi_called_write_dict cid d)) =
      if truthyS d.leadSource then
        upsertField (upsertField (upsertField fs "vapi_called" "true")
          "vapi_call_id" cid) "lead_source" (pyStr d.leadSource)
      else upsertField (upsertField fs "vapi_called" "true") "vapi_call_id" cid := by
  have hvc := strip_norm "vapi_called" (by decide)
  have hci := strip_norm "vapi_call_id" (by decide)
  have hlsk := strip_norm "lead_source" (by decide)
  by_cases hls : truthyS d.leadSource = true
  · simp [vapi_called_write_dict, hls, build_custom_fields_array, applyFieldWrites,
      hvc, hci, hlsk]
  · have hls' := boolNotTrue hls
    simp [vapi_called_write_dict, hls', build_custom_fields_array, applyFieldWrites,
      hvc, hci, hlsk]

lemma getCF_after_call_write (fs : List (String × String)) (cid : String)
    (d : LeadData) :
    getCF (applyFieldWrites fs (build_custom_fields_array
      (vapi_called_write_dict cid d))) "vapi_called" = some "true" := by
  rw [applyWrites_shape]
  have hne1 : (("lead_source" : String) == "vapi_called") = false := by decide
  have hne2 : (("vapi_call_id" : String) == "vapi_called") = false := by decide
  by_cases hls : truthyS d.leadSource = true
  · rw [if_pos hls, getCF_upsert_ne _ _ hne1, getCF_upsert_ne _ _ hne2,
      getCF_upsert_self]
  · rw [if_neg hls, getCF_upsert_ne _ _ hne2, getCF_upsert_self]

lemma WFStore_after_call_write (fs : List (String × String)) (cid : String)
    (d : LeadData) (hw : WFStore fs) :
    WFStore (applyFieldWrites fs (build_custom_fields_array
      (vapi_called_write_dict cid d))) := by
  rw [applyWrites_shape]
  by_cases hls : truthyS d.leadSource = true
  · rw [if_pos hls]
    exact WFStore_upsert _ (WFStore_upsert _ (WFStore_upsert _ hw (by decide))
      (by decide)) (by decide)
  · rw [if_neg hls]
    exact WFStore_upsert _ (WFStore_upsert _ hw (by decide)) (by decide)

lemma assistant_truthy (a b : Option String) :
    truthyS (pyOrOpt a (pyOrOpt b (some default_outbound_assistant))) = true := by
  unfold pyOrOpt
  by_cases ha : truthyS a = true
  · simp [ha]
  · have ha' := boolNotTrue ha
    by_cases hb : truthyS b = true
    · simp [ha', hb]
    · have hb' := boolNotTrue hb
      have hd : truthyS (some default_outbound_assistant) = true := by decide
      simp [ha', hb', hd]

lemma handle_new_lead_success (n : String → Option String) (cfg : LeadConfig)
    (cid : String) (pres : String → Bool) (c : Contact) (d : LeadData)
    (h : (handle_new_lead n cfg cid pres (some c) d).1.calls = 1) :
    ∃ p pc, extractPhone c = some p ∧ (p == "") = false ∧ n p = some pc ∧
      flagTrue (vapi_called_value (presentFields pres c.fields)) = false ∧
      handle_new_lead n cfg cid pres (some c) d =
        (⟨1, 1⟩, some { c with fields := applyFieldWrites c.fields (build_custom_fields_array (vapi_called_write_dict cid d)) }) := by
  cases hp : extractPhone c with
  | none => rw [show handle_new_lead n cfg cid pres (some c) d =
      (⟨0, 0⟩, some c) by simp [handle_new_lead, hp]] at h; simp at h
  | some p =>
    cases hpe : (p == "") with
    | true => rw [show handle_new_lead n cfg cid pres (some c) d =
        (⟨0, 0⟩, some c) by simp [handle_new_lead, hp, hpe]] at h; simp at h
    | false =>
      cases hn : n p with
      | none => rw [show handle_new_lead n cfg cid pres (some c) d =
          (⟨0, 0⟩, some c) by simp [handle_new_lead, hp, hpe, hn]] at h
                simp at h
      | some pc =>
        cases hflag : flagTrue (vapi_called_value (presentFields pres c.fields)) with
        | true => rw [show handle_new_lead n cfg cid pres (some c) d =
            (⟨0, 0⟩, some c) by simp [handle_new_lead, hp, hpe, hn, hflag]] at h
                  simp at h
        | false =>
          refine ⟨p, pc, rfl, hpe, hn, rfl, ?_⟩
          simp [handle_new_lead, hp, hpe, hn, hflag,
            assistant_truthy d.assistantId cfg.vapi_outbound_assistant_id]

/-- C4: the intake handler is idempotent per contact.  (a) A contact whose
`vapi_called` flag (read unprefixed-first, then prefixed) already evaluates
to `true` triggers no outbound call and no contact update — the handler is a
no-op returning the contact unchanged.  (b) If a run issued a call (its
effect count is 1 call, and it performed exactly the one `vapi_called=true`
write), then a second delivery for the resulting contact — under any key
presentation the CRM chooses — issues zero calls and zero updates, leaving
the contact unchanged; the store invariant is that CRM canonical keys are
unprefixed. -/
theorem c4_lead_intake_idempotent :
    (∀ (n : String → Option String) (cfg : LeadConfig) (cid : String)
        (pres : String → Bool) (c : Contact) (d : LeadData),
        flagTrue (vapi_called_value (presentFields pres c.fields)) = true →
        handle_new_lead n cfg cid pres (some c) d = (⟨0, 0⟩, some c)) ∧
    (∀ (n : String → Option String) (cfg : LeadConfig) (cid cid2 : String)
        (pres pres2 : String → Bool) (c : Contact) (d : LeadData),
        WFStore c.fields →
        (handle_new_lead n cfg cid pres (some c) d).1.calls = 1 →
        ∃ c1, (handle_new_lead n cfg cid pres (some c) d).2 = some c1 ∧
          getCF c1.fields "vapi_called" = some "true" ∧
          handle_new_lead n cfg cid2 pres2 (some c1) d = (⟨0, 0⟩, some c1)) := by
  constructor
  · intro n cfg cid pres c d hflag
    cases hp : extractPhone c with
    | none => simp [handle_new_lead, hp]
    | some p =>
      cases hpe : (p == "") with
      | true => simp [handle_new_lead, hp, hpe]
      | false =>
        cases hn : n p with
        | none => simp [handle_new_lead, hp, hpe, hn]
        | some pc => simp [handle_new_lead, hp, hpe, hn, hflag]
  · intro n cfg cid cid2 pres pres2 c d hw h1
    obtain ⟨p, pc, hp, hpe, hn, hflag, heq⟩ :=
      handle_new_lead_success n cfg cid pres c d h1
    refine ⟨{ c with fields := applyFieldWrites c.fields (build_custom_fields_array (vapi_called_write_dict cid d)) },
      by rw [heq], getCF_after_call_write c.fields cid d, ?_⟩
    have hwf1 : WFStore (applyFieldWrites c.fields
        (build_custom_fields_array (vapi_called_write_dict cid d))) :=
      WFStore_after_call_write c.fields cid d hw
    have hval := getCF_after_call_write c.fields cid d
    have hknp : startsWithContact "vapi_called" = false := by decide
    have hflag2 : flagTrue (vapi_called_value (presentFields pres2
        (applyFieldWrites c.fields
          (build_custom_fields_array (vapi_called_write_dict cid d))))) = true := by
      unfold vapi_called_value
      cases hp2 : pres2 "vapi_called" with
      | false =>
        rw [getCF_present_unpref_off pres2 hknp hp2, hval]
        simp [pyOrOpt, truthyS, flagTrue]
      | true =>
        rw [getCF_present_unpref_on pres2 hknp hp2]
        have hkey : ("contact.vapi_called" : String) = "contact." ++ "vapi_called" := by
          decide
        rw [hkey, getCF_present_pref_on pres2 hwf1 hp2, hval]
        simp [pyOrOpt, truthyS, flagTrue]
    have hp1 : extractPhone { c with fields := applyFieldWrites c.fields (build_custom_fields_array (vapi_called_write_dict cid d)) } = some p := hp
    simp [handle_new_lead, hp1, hpe, hn, hflag2]

/-- C4 witness: (a) a contact already flagged `vapi_called=true` is skipped;
(b) a fresh contact is called exactly once and the redelivery is a no-op. -/
theorem c4_lead_intake_idempotent_witness :
    (handle_new_lead (fun s => some s) ⟨none, none⟩ "call-1" (fun _ => false)
        (some { phone := some "+15035550101", phoneNumber := none,
                phoneNumbers := PhoneNumbersField.numbers [],
                fields := [("vapi_called", "true")] })
        ⟨none, none, none⟩ =
      (⟨0, 0⟩, some { phone := some "+15035550101", phoneNumber := none,
                      phoneNumbers := PhoneNumbersField.numbers [],
                      fields := [("vapi_called", "true")] })) ∧
    (∃ c1, (handle_new_lead (fun s => some s) ⟨none, none⟩ "call-1"
          (fun _ => false)
          (some { phone := some "+15035550101", phoneNumber := none,
                  phoneNumbers := PhoneNumbersField.numbers [], fields := [] })
          ⟨none, none, none⟩).2 = some c1 ∧
        getCF c1.fields "vapi_called" = some "true" ∧
        handle_new_lead (fun s => some s) ⟨none, none⟩ "call-2"
          (fun _ => true) (some c1) ⟨none, none, none⟩ = (⟨0, 0⟩, some c1)) :=
  ⟨c4_lead_intake_idempotent.1 (fun s => some s) ⟨none, none⟩ "call-1"
      (fun _ => false)
      { phone := some "+15035550101", phoneNumber := none,
        phoneNumbers := PhoneNumbersField.numbers [],
        fields := [("vapi_called", "true")] }
      ⟨none, none, none⟩ (by decide),
   c4_lead_intake_idempotent.2 (fun s => some s) ⟨none, none⟩ "call-1" "call-2"
      (fun _ => false) (fun _ => true)
      { phone := some "+15035550101", phoneNumber := none,
        phoneNumbers := PhoneNumbersField.numbers [], fields := [] }
      ⟨none, none, none⟩
      (by intro kv hkv; exact absurd hkv (List.not_mem_nil kv))
      (by decide)⟩

/-!
Duplicate-contact recovery (`create_contact`,
`src/functions/create_contact.py` lines 62-172).

The caught exception is modelled by `CreateErr`: `message` is `str(e)`;
`status_code` is the `GHLAPIError` status (`none` for a non-GHL exception);
`response` is `e.details.get("response", "")` when the error is a
`GHLAPIError` with truthy details, else `none`; `parsedResponse` is the
result of `json.loads(response)` (`none` when decoding fails or the result
is not a dict).  The three `re.search` patterns of lines 136-140 are
implemented as explicit scanners below.
-/

/-- Python `needle in hay` on strings, over char lists. -/
def charsContain (needle : List Char) : List Char → Bool
  | [] => needle.isEmpty
  | c :: t => if needle.isPrefixOf (c :: t) then true else charsContain needle t

/-- Python substring test `needle in hay`. -/
def strContains (hay needle : String) : Bool :=
  charsContain needle.data hay.data

/-- The regex `\s` class. -/
def isSpaceCh (c : Char) : Bool :=
  c == ' ' || c == '\t' || c == '\n' || c == '\x0b' || c == '\x0c' || c == '\r'

/-- Consume `\s*`. -/
def dropWs : List Char → List Char
  | [] => []
  | c :: t => if isSpaceCh c then dropWs t else c :: t

/-- Match a literal, returning the rest. -/
def dropLit (lit cs : List Char) : Option (List Char) :=
  if lit.isPrefixOf cs then some (cs.drop lit.length) else none

/-- Greedy `[^"]+` followed by the closing `"` — capture up to the first
quote, requiring the quote to exist. -/
def takeUntilQuote : List Char → Option (List Char × List Char)
  | [] => none
  | c :: t =>
    if c == '"' then some ([], t)
    else
      match takeUntilQuote t with
      | some (cap, rest) => some (c :: cap, rest)
      | none => none

/-- Consume an optional `["']` (the `["\x27]?` of patterns 2 and 3; single
determinization is sound because the follow-up classes exclude quotes, so
regex backtracking over the optional quote can never succeed). -/
def optQuote : List Char → List Char
  | [] => []
  | c :: t => if c == '"' || c == '\x27' then t else c :: t

/-- Anchored match of pattern 1, `"contactId"\s*:\s*"([^"]+)"`, returning
group 1. -/
def p1At (cs : List Char) : Option String :=
  match dropLit "\"contactId\"".data cs with
  | none => none
  | some r0 =>
    match dropWs r0 with
    | ':' :: r1 =>
      match dropWs r1 with
      | '"' :: r2 =>
        match takeUntilQuote r2 with
        | some (cap, _) => if cap.isEmpty then none else some (String.mk cap)
        | none => none
      | _ => none
    | _ => none

/-- The capture class of pattern 2: `[^"\x27\s,\x7d]+`. -/
def p2CapCh (c : Char) : Bool :=
  !(c == '"' || c == '\x27' || c == ',' || c == '\x7d' || isSpaceCh c)

/-- Anchored match of pattern 2,
`contactId["\x27]?\s*[:=]\s*["\x27]?([^"\x27\s,\x7d]+)`. -/
def p2At (cs : List Char) : Option String :=
  match dropLit "contactId".data cs with
  | none => none
  | some r0 =>
    match dropWs (optQuote r0) with
    | c :: t =>
      if c == ':' || c == '=' then
        let cap := (optQuote (dropWs t)).takeWhile p2CapCh
        if cap.isEmpty then none else some (String.mk cap)
      else none
    | [] => none

/-- Anchored match of pattern 3,
`contactId["\x27]?\s*:\s*["\x27]?([a-zA-Z0-9]+)`. -/
def p3At (cs : List Char) : Option String :=
  match dropLit "contactId".data cs with
  | none => none
  | some r0 =>
    match dropWs (optQuote r0) with
    | c :: t =>
      if c == ':' then
        let cap := (optQuote (dropWs t)).takeWhile Char.isAlphanum
        if cap.isEmpty then none else some (String.mk cap)
      else none
    | [] => none

/-- `re.search`: try the anchored matcher at each position, leftmost first. -/
def searchWith (f : List Char → Option String) : List Char → Option String
  | [] => f []
  | c :: t =>
    match f (c :: t) with
    | some r => some r
    | none => searchWith f t

/-- The regex fallback loop of lines 134-146: try the three patterns in
order, keeping the first match's group 1. -/
def regexExtract (s : String) : Option String :=
  match searchWith p1At s.data with
  | some v => some v
  | none =>
    match searchWith p2At s.data with
    | some v => some v
    | none => searchWith p3At s.data

/-- The parsed `meta` object of the error body. -/
structure ErrMeta where
  contactId : Option String
deriving DecidableEq

/-- The parsed error body: `meta` when present and a dict; `contactId` when
the key is present at top level. -/
structure ErrBody where
  meta : Option ErrMeta
  contactId : Option String
deriving DecidableEq

/-- The caught contact-create exception (see section comment). -/
structure CreateErr where
  message : String
  status_code : Option Nat
  response : Option String
  parsedResponse : Option ErrBody
deriving DecidableEq

/-- `full_error_text` of lines 89-90: lowercased `str(e)` plus the GHL
response text. -/
def fullErrorText (e : CreateErr) : String :=
  lowerStr (e.message ++ " " ++ (match e.response with
    | some r => r
    | none => ""))

/-- The duplicate-indicator check of lines 93-98. -/
def is_duplicate (e : CreateErr) : Bool :=
  strContains (fullErrorText e) "duplicated contacts" ||
  strContains (fullErrorText e) "duplicate" ||
  strContains (fullErrorText e) "does not allow duplicated" ||
  strContains (fullErrorText e) "duplicate contact"

/-- Lines 101-103: the error is a `GHLAPIError` with status 400. -/
def is_400_error (e : CreateErr) : Bool :=
  e.status_code == some 400

/-- The recovery gate of line 105. -/
def dupGate (e : CreateErr) : Bool :=
  is_duplicate e ||
    (is_400_error e &&
      (strContains (fullErrorText e) "contact" ||
       strContains (fullErrorText e) "duplicate"))

/-- The structured extraction of lines 110-131: requires truthy details with
a response, a JSON dict; `meta.contactId` first, then — when that was falsy —
the top-level `contactId` key. -/
def structuredContactId (e : CreateErr) : Option String :=
  match e.response with
  | none => none
  | some _ =>
    match e.parsedResponse with
    | none => none
    | some b =>
      let c1 : Option String :=
        match b.meta with
        | some m => m.contactId
        | none => none
      if truthyS c1 then c1
      else
        match b.contactId with
        | some v => some v
        | none => c1

/-- The full extraction: structured value if truthy, else the regex loop
over `str(e)` (lines 133-146). -/
def extractedContactId (e : CreateErr) : Option String :=
  if truthyS (structuredContactId e) then structuredContactId e
  else regexExtract e.message

/-- What `create_contact`'s except-branch produces. -/
inductive CreateOutcome where
  | updatedExisting (contact_id : String)
  | reraised
deriving DecidableEq

/-- The except-branch of lines 75-166 for the create path: if the gate
recognizes a duplicate and an id is recovered, issue `update_contact` with
the SAME `contact_data` payload (second component lists the issued updates);
on update success return `is_new = false` (`updatedExisting`), on update
failure re-raise the original error; with no recoverable id, or a
non-duplicate error, re-raise the original error with no update issued. -/
def create_contact_on_error {α : Type} (payload : α) (e : CreateErr)
    (updateOk : Bool) : CreateOutcome × List (String × α) :=
  if dupGate e then
    match extractedContactId e with
    | some cid =>
      if cid == "" then (.reraised, [])
      else if updateOk then (.updatedExisting cid, [(cid, payload)])
      else (.reraised, [(cid, payload)])
    | none => (.reraised, [])
  else (.reraised, [])

/-- C6: on a create failure recognized as a duplicate, (1) a recovered id
leads to an `update_contact` call on that id with the same payload, and
`is_new = false` when the update succeeds; (2) with no recoverable id the
original error is re-raised and no update is issued; (3) a truthy
`meta.contactId` in the parsed error body wins (regardless of the top-level
key or the raw text); (4) with a falsy `meta` value, a truthy top-level
`contactId` is used next; (5) when the structured extraction is falsy, the
result is the regex loop over the raw error text, and pattern 1 has
priority. -/
theorem c6_duplicate_contact_resolution :
    (∀ (α : Type) (payload : α) (e : CreateErr) (u : Bool) (cid : String),
        dupGate e = true → extractedContactId e = some cid → ¬(cid = "") →
        (create_contact_on_error payload e u).2 = [(cid, payload)] ∧
        (u = true →
          (create_contact_on_error payload e u).1 =
            CreateOutcome.updatedExisting cid)) ∧
    (∀ (α : Type) (payload : α) (e : CreateErr) (u : Bool),
        dupGate e = true → extractedContactId e = none →
        create_contact_on_error payload e u = (.reraised, [])) ∧
    (∀ (e : CreateErr) (r : String) (b : ErrBody) (m : ErrMeta) (v : String),
        e.response = some r → e.parsedResponse = some b → b.meta = some m →
        m.contactId = some v → ¬(v = "") →
        extractedContactId e = some v) ∧
    (∀ (e : CreateErr) (r : String) (b : ErrBody) (v : String),
        e.response = some r → e.parsedResponse = some b →
        truthyS (match b.meta with
          | some m => m.contactId
          | none => none) = false →
        b.contactId = some v → ¬(v = "") →
        extractedContactId e = some v) ∧
    (∀ e : CreateErr,
        truthyS (structuredContactId e) = false →
        extractedContactId e = regexExtract e.message ∧
        ∀ v, searchWith p1At e.message.data = some v →
          regexExtract e.message = some v) := by
  refine ⟨?_, ?_, ?_, ?_, ?_⟩
  · intro α payload e u cid hg hid hne
    have hne' : (cid == "") = false := beq_eq_false_iff_ne.mpr hne
    cases u with
    | true =>
      constructor
      · simp [create_contact_on_error, hg, hid, hne']
      · intro
        simp [create_contact_on_error, hg, hid, hne']
    | false =>
      constructor
      · simp [create_contact_on_error, hg, hid, hne']
      · intro hu
        exact Bool.noConfusion hu
  · intro α payload e u hg hid
    simp [create_contact_on_error, hg, hid]
  · intro e r b m v hr hp hm hv hne
    have hne' : (v == "") = false := beq_eq_false_iff_ne.mpr hne
    have hs : structuredContactId e = some v := by
      simp [structuredContactId, hr, hp, hm, hv, truthyS, hne']
    simp [extractedContactId, hs, truthyS, hne']
  · intro e r b v hr hp hmf hv hne
    have hne' : (v == "") = false := beq_eq_false_iff_ne.mpr hne
    have hs : structuredContactId e = some v := by
      simp only [structuredContactId, hr, hp, hmf, hv]
      simp [hmf]
    simp [extractedContactId, hs, truthyS, hne']
  · intro e hs
    refine ⟨by simp [extractedContactId, hs], ?_⟩
    intro v h1
    simp [regexExtract, h1]

/-- The concrete duplicate error of the spec scenario: HTTP 400, a response
body whose `meta.contactId` is `C2`. -/
def dupErrExample : CreateErr :=
  { message := "GHL API request failed: 400"
    status_code := some 400
    response := some "\x7b\"meta\": \x7b\"contactId\": \"C2\"\x7d\x7d"
    parsedResponse := some ⟨some ⟨some "C2"⟩, none⟩ }

/-- C6 witness: the spec scenario — the failed create becomes an update of
contact `C2` with the original payload, reported as pre-existing. -/
theorem c6_duplicate_contact_resolution_witness :
    (create_contact_on_error "payload0" dupErrExample true).2 =
      [("C2", "payload0")] ∧
    (create_contact_on_error "payload0" dupErrExample true).1 =
      CreateOutcome.updatedExisting "C2" := by
  have h := c6_duplicate_contact_resolution.1 String "payload0" dupErrExample
    true "C2" (by decide) (by decide) (by decide)
  exact ⟨h.1, h.2 rfl⟩

end HVAC
